import Mathlib

/-!
Verification of the `POST /upload` handler of `src/server.js`
(tilda-form-uploader).

The handler is embedded as a pure function.  The two external services
(Google Drive and Google Sheets) and the clock are modelled by an
environment `Env` of oracles returning `Except Err _` values — `.error`
models a rejected promise (a thrown exception).  Every externally
observable side effect of a request (Drive `files.create`,
`permissions.create`, `files.get`, Sheets `values.append`, and
`fs.unlinkSync` on temporary files) is recorded in a `Trace`.  The
`remote` field of the trace is the set (list) of Drive file ids created
by this request that exist remotely at the end of the request; the code
has no delete operation, so an id enters `remote` when `files.create`
succeeds and is never removed.
-/

/-- A thrown JS error: `message` is `none` when `err.message` is `undefined`. -/
structure Err where
  message : Option String
deriving DecidableEq

/-- Result of `drive.files.get({fileId, fields: 'id, name, webViewLink, webContentLink'})`.
`webViewLink` is `none` when the service returns no such field. -/
structure FileMeta where
  id : String
  name : String
  webViewLink : Option String
deriving DecidableEq

/-- A multer file object as seen by the handler: `originalname`, `mimetype`,
`size` in bytes, and the temporary local `path` under `tmp_uploads/`. -/
structure ReqFile where
  originalname : String
  mimetype : String
  size : Nat
  path : String
deriving DecidableEq

/-- The text fields of `req.body`; a field is `none` when absent from the form. -/
structure ReqBody where
  firstName : Option String
  lastName : Option String
  phone : Option String
deriving DecidableEq

/-- One element of the `uploaded` array pushed by the loop:
`{ id: meta.data.id, name: meta.data.name, link: ... }`. -/
structure UploadResult where
  id : String
  name : String
  link : String
deriving DecidableEq

/-- Arguments of a `drive.files.create` call: `name` and `parents:[DRIVE_FOLDER_ID]`
from the file metadata, and the media `mimeType`. -/
structure CreateCall where
  name : String
  parent : String
  mimeType : String
deriving DecidableEq

/-- Arguments of a `sheets.spreadsheets.values.append` call. -/
structure AppendCall where
  spreadsheetId : String
  range : String
  valueInputOption : String
  row : List String
deriving DecidableEq

/-- The externally observable side effects of one request, per kind of call,
each in the order the calls were made. -/
structure Trace where
  createCalls : List CreateCall
  remote : List String
  permCalls : List String
  getCalls : List String
  appendCalls : List AppendCall
  unlinkAttempts : List String
deriving DecidableEq

def Trace.empty : Trace := ⟨[], [], [], [], [], []⟩

/-- Sequential composition of two effect traces. -/
def Trace.seq (t₁ t₂ : Trace) : Trace :=
  ⟨t₁.createCalls ++ t₂.createCalls, t₁.remote ++ t₂.remote,
   t₁.permCalls ++ t₂.permCalls, t₁.getCalls ++ t₂.getCalls,
   t₁.appendCalls ++ t₂.appendCalls, t₁.unlinkAttempts ++ t₂.unlinkAttempts⟩

/-- The environment of one request: the configuration strings, the clock, and
the outcome of each external call.  `create i` is the outcome of the
`drive.files.create` call for the `i`-th file of the loop (0-based);
`perm`/`get` are keyed by the Drive file id they are called with;
`append` is the outcome of the single `sheets.spreadsheets.values.append` call. -/
structure Env where
  driveFolderId : String
  sheetsId : String
  now : String
  create : Nat → Except Err String
  perm : String → Except Err Unit
  get : String → Except Err FileMeta
  append : Except Err Unit

/-- JS falsiness of a possibly-absent string: `undefined` and `""` are falsy. -/
def jsFalsy (x : Option String) : Bool :=
  decide (x.getD "" = "")

/-- JS `x || d` for a possibly-absent string `x`. -/
def jsOrStr (x : Option String) (d : String) : String :=
  if jsFalsy x then d else x.getD ""

/-- The `link` of an uploaded file:
`meta.data.webViewLink || ('https://drive.google.com/uc?id=' + meta.data.id)`. -/
def mkLink (meta : FileMeta) : String :=
  jsOrStr meta.webViewLink ("https://drive.google.com/uc?id=" ++ meta.id)

/-- The `uploaded` entry built from a `files.get` result. -/
def mkResult (meta : FileMeta) : UploadResult :=
  { id := meta.id, name := meta.name, link := mkLink meta }

/-- The `drive.files.create` arguments for one file. -/
def mkCreateCall (env : Env) (f : ReqFile) : CreateCall :=
  { name := f.originalname, parent := env.driveFolderId, mimeType := f.mimetype }

/-- The continuation after the `drive.permissions.create` call: the call sits in
`try{...}catch(e){ console.warn(...) }`, so both a fulfilled and a rejected
promise continue with the same state. -/
def permStep {α : Type} (r : Except Err Unit) (t : α) : α :=
  match r with
  | .ok _ => t
  | .error _ => t

/-- The `for(const f of files)` loop of the handler, starting at loop index `i`.
Returns `(some e, us, t)` when an uncaught exception `e` aborts the loop
(`us` being the entries pushed onto `uploaded` before the abort, `t` the
effects so far), and `(none, us, t)` when every file succeeded.
The per-file `fs.unlinkSync(f.path)` is wrapped in `try{}catch{}` and is
recorded as an attempt. -/
def runLoop (env : Env) : Nat → List ReqFile → Option Err × List UploadResult × Trace
  | _, [] => (none, [], Trace.empty)
  | i, f :: rest =>
    match env.create i with
    | .error e => (some e, [], { Trace.empty with createCalls := [mkCreateCall env f] })
    | .ok fileId =>
      let t₀ : Trace := { createCalls := [mkCreateCall env f], remote := [fileId],
                          permCalls := [fileId], getCalls := [],
                          appendCalls := [], unlinkAttempts := [] }
      let t₁ := permStep (env.perm fileId) t₀
      let t₂ := { t₁ with getCalls := [fileId] }
      match env.get fileId with
      | .error e => (some e, [], t₂)
      | .ok meta =>
        let t₃ := { t₂ with unlinkAttempts := [f.path] }
        let out := runLoop env (i + 1) rest
        (out.1, mkResult meta :: out.2.1, t₃.seq out.2.2)

def noFilesMsg : String := "Hech qanday rasm yuklanmadi."
def tooManyMsg : String := "Maksimal 10 ta rasm ruxsat etiladi."
def tooLargeMsg : String := "Fayllarning umumiy hajmi 100MB dan oshdi."
def missingMsg : String := "Ism, familiya yoki telefon raqami toʻliq emas."

/-- The total-size limit `100 * 1024 * 1024` bytes. -/
def sizeLimit : Nat := 100 * 1024 * 1024

/-- `files.reduce((s,f)=>s+f.size,0)`. -/
def totalSize (files : List ReqFile) : Nat :=
  files.foldl (fun s f => s + f.size) 0

/-- The response body: `{success:true, uploaded}` or `{success:false, error}`. -/
inductive RespBody where
  | ok (uploaded : List UploadResult)
  | fail (error : String)
deriving DecidableEq

/-- The `success` flag of a response body. -/
def RespBody.success : RespBody → Bool
  | .ok _ => true
  | .fail _ => false

structure Response where
  status : Nat
  body : RespBody
deriving DecidableEq

/-- The `catch(err)` block: attempt `fs.unlinkSync` on every file of `req.files`
(when that field is present) and answer
`500 {success:false, error: err.message || 'Server xatosi'}`. -/
def catchResponse (e : Err) (reqFiles : Option (List ReqFile)) (t : Trace) :
    Response × Trace :=
  let t' := match reqFiles with
    | none => t
    | some fs => { t with unlinkAttempts := t.unlinkAttempts ++ fs.map (fun f => f.path) }
  ({ status := 500, body := .fail (jsOrStr e.message "Server xatosi") }, t')

/-- The `POST /upload` handler of `src/server.js`: validation, the upload
loop, the sheet append, the success response, and the catch block.
`reqFiles` is `req.files` (possibly absent), `body` is `req.body`. -/
def handler (env : Env) (reqFiles : Option (List ReqFile)) (body : ReqBody) :
    Response × Trace :=
  let files := reqFiles.getD []
  if files.length = 0 then
    ({ status := 400, body := .fail noFilesMsg }, Trace.empty)
  else if files.length > 10 then
    ({ status := 400, body := .fail tooManyMsg }, Trace.empty)
  else if totalSize files > sizeLimit then
    ({ status := 400, body := .fail tooLargeMsg }, Trace.empty)
  else if jsFalsy body.firstName || jsFalsy body.lastName || jsFalsy body.phone then
    ({ status := 400, body := .fail missingMsg },
     { Trace.empty with unlinkAttempts := files.map (fun f => f.path) })
  else
    match runLoop env 0 files with
    | (some e, _, t) => catchResponse e reqFiles t
    | (none, uploaded, t) =>
      let fileNames := String.intercalate " | " (uploaded.map (fun u => u.name))
      let fileLinks := String.intercalate " | " (uploaded.map (fun u => u.link))
      let row : List String := [env.now, body.firstName.getD "", body.lastName.getD "",
        body.phone.getD "", toString uploaded.length, fileNames, fileLinks]
      let t' := { t with appendCalls := t.appendCalls ++
        [{ spreadsheetId := env.sheetsId, range := "Sheet1!A:Z",
           valueInputOption := "USER_ENTERED", row := row }] }
      match env.append with
      | .error e => catchResponse e reqFiles t'
      | .ok _ => ({ status := 200, body := .ok uploaded }, t')

/-- The list `[g j, g (j+1), ..., g (j+n-1)]`. -/
def seqFrom {α : Type} (g : Nat → α) (j n : Nat) : List α :=
  (List.range n).map (fun i => g (j + i))

/-- The `uploaded` array produced when every file succeeds, the `i`-th Drive
`files.get` call answering `metas i`. -/
def expectedUploads (metas : Nat → FileMeta) (n : Nat) : List UploadResult :=
  seqFrom (fun i => mkResult (metas i)) 0 n

/-- The spreadsheet row the handler builds from the request fields and the
`uploaded` array. -/
def expectedRow (env : Env) (body : ReqBody) (us : List UploadResult) : List String :=
  [env.now, body.firstName.getD "", body.lastName.getD "", body.phone.getD "",
   toString us.length, String.intercalate " | " (us.map (fun u => u.name)),
   String.intercalate " | " (us.map (fun u => u.link))]

/-- The single `sheets.spreadsheets.values.append` call of a successful request. -/
def expectedAppend (env : Env) (body : ReqBody) (us : List UploadResult) : AppendCall :=
  { spreadsheetId := env.sheetsId, range := "Sheet1!A:Z",
    valueInputOption := "USER_ENTERED", row := expectedRow env body us }

/-- The effect trace of a fully successful upload loop over `fs`, started at
loop index `j`, the `i`-th `files.create` call answering id `ids i`. -/
def okTrace (env : Env) (ids : Nat → String) (j : Nat) (fs : List ReqFile) : Trace :=
  { createCalls := fs.map (mkCreateCall env),
    remote := seqFrom ids j fs.length,
    permCalls := seqFrom ids j fs.length,
    getCalls := seqFrom ids j fs.length,
    appendCalls := [],
    unlinkAttempts := fs.map (fun f => f.path) }

/-- The effect trace of an upload loop over `fs` started at loop index `j`
whose `k`-th file's `files.create` call fails (the first `k` files having
fully succeeded). -/
def errTrace (env : Env) (ids : Nat → String) (j k : Nat) (fs : List ReqFile) : Trace :=
  { createCalls := (fs.take (k + 1)).map (mkCreateCall env),
    remote := seqFrom ids j k,
    permCalls := seqFrom ids j k,
    getCalls := seqFrom ids j k,
    appendCalls := [],
    unlinkAttempts := (fs.take k).map (fun f => f.path) }

/-- A submission that passes all four validation checks. -/
def validSubmission (files : List ReqFile) (body : ReqBody) : Prop :=
  files.length ≠ 0 ∧ files.length ≤ 10 ∧ totalSize files ≤ sizeLimit ∧
  jsFalsy body.firstName = false ∧ jsFalsy body.lastName = false ∧
  jsFalsy body.phone = false

/-- A submission that fails at least one of the four validation checks. -/
def validationFails (files : List ReqFile) (body : ReqBody) : Prop :=
  files.length = 0 ∨ files.length > 10 ∨ totalSize files > sizeLimit ∨
  (jsFalsy body.firstName || jsFalsy body.lastName || jsFalsy body.phone) = true

instance {ε α : Type} [DecidableEq ε] [DecidableEq α] : DecidableEq (Except ε α)
  | .ok a, .ok b => decidable_of_iff (a = b) (by simp)
  | .ok _, .error _ => isFalse (by simp)
  | .error _, .ok _ => isFalse (by simp)
  | .error a, .error b => decidable_of_iff (a = b) (by simp)

/-- A concrete upstream error used for concrete runs. -/
def wErr : Err := { message := some "boom" }

/-- A concrete spreadsheet-append error used for concrete runs. -/
def wSheetErr : Err := { message := some "sheets down" }

def wFileA : ReqFile :=
  { originalname := "a.jpg", mimetype := "image/jpeg", size := 100, path := "tmp/a" }

def wFileB : ReqFile :=
  { originalname := "b.jpg", mimetype := "image/jpeg", size := 200, path := "tmp/b" }

/-- A 60 MiB file (under the per-file limit, over half the total limit). -/
def wBigA : ReqFile :=
  { originalname := "bigA.jpg", mimetype := "image/jpeg", size := 60 * 1024 * 1024,
    path := "tmp/bigA" }

def wBigB : ReqFile :=
  { originalname := "bigB.jpg", mimetype := "image/jpeg", size := 60 * 1024 * 1024,
    path := "tmp/bigB" }

def wBody : ReqBody :=
  { firstName := some "Ali", lastName := some "Valiyev", phone := some "+998901234567" }

def wIds : Nat → String := fun i => "id" ++ toString i

def wMetas : Nat → FileMeta :=
  fun i => { id := wIds i, name := "n-" ++ wIds i, webViewLink := none }

/-- A concrete environment in which every external call succeeds. -/
def wEnv : Env :=
  { driveFolderId := "folder", sheetsId := "sheet", now := "2026-10-12T00:00:00.000Z",
    create := fun i => .ok (wIds i), perm := fun _ => .ok (),
    get := fun s => .ok { id := s, name := "n-" ++ s, webViewLink := none },
    append := .ok () }

/-- Like `wEnv` but `files.create` fails from the second file on. -/
def wEnvFail1 : Env :=
  { wEnv with create := fun i => if i < 1 then .ok (wIds i) else .error wErr }

/-- Like `wEnv` but the spreadsheet append fails. -/
def wEnvAppendErr : Env := { wEnv with append := .error wSheetErr }

/-- A permission oracle that always fails. -/
def wPermFail : String → Except Err Unit :=
  fun _ => .error { message := some "perm denied" }

/-- Metadata oracle giving the two files the display names `a` and `b`. -/
def cexGet : String → Except Err FileMeta := fun s =>
  .ok { id := s, name := if s = "id0" then "a" else "b", webViewLink := none }

def cexEnv : Env := { wEnv with get := cexGet }

def cexMetas : Nat → FileMeta :=
  fun i => { id := wIds i, name := if i = 0 then "a" else "b", webViewLink := none }

lemma permStep_eq {α : Type} (r : Except Err Unit) (t : α) : permStep r t = t := by
  cases r <;> rfl

lemma seqFrom_zero {α : Type} (g : Nat → α) (j : Nat) : seqFrom g j 0 = [] := rfl

lemma seqFrom_succ {α : Type} (g : Nat → α) (j n : Nat) :
    seqFrom g j (n + 1) = g j :: seqFrom g (j + 1) n := by
  unfold seqFrom
  rw [List.range_succ_eq_map, List.map_cons, List.map_map, Nat.add_zero]
  refine congrArg (g j :: ·) (List.map_congr_left ?_)
  intro a _
  simp only [Function.comp_apply, Nat.succ_eq_add_one]
  exact congrArg g (by omega)

lemma seqFrom_length {α : Type} (g : Nat → α) (j n : Nat) :
    (seqFrom g j n).length = n := by
  simp [seqFrom]

lemma seqFrom_getElem? {α : Type} (g : Nat → α) (j n i : Nat) (h : i < n) :
    (seqFrom g j n)[i]? = some (g (j + i)) := by
  simp [seqFrom, List.getElem?_map, List.getElem?_range h]

lemma seqFrom_map {α β : Type} (g : Nat → α) (h : α → β) (j n : Nat) :
    (seqFrom g j n).map h = seqFrom (fun i => h (g i)) j n := by
  simp [seqFrom, List.map_map, Function.comp]

lemma runLoop_ok (env : Env) (ids : Nat → String) (metas : Nat → FileMeta) :
    ∀ (fs : List ReqFile) (j : Nat),
    (∀ i, i < fs.length →
      env.create (j + i) = .ok (ids (j + i)) ∧
      env.get (ids (j + i)) = .ok (metas (j + i))) →
    runLoop env j fs =
      (none, seqFrom (fun i => mkResult (metas i)) j fs.length, okTrace env ids j fs) := by
  intro fs
  induction fs with
  | nil =>
    intro j _
    simp [runLoop, okTrace, seqFrom, Trace.empty]
  | cons f rest ih =>
    intro j h
    have h0 := h 0 (by simp)
    simp only [Nat.add_zero] at h0
    have hrest : ∀ i, i < rest.length →
        env.create ((j + 1) + i) = .ok (ids ((j + 1) + i)) ∧
        env.get (ids ((j + 1) + i)) = .ok (metas ((j + 1) + i)) := by
      intro i hi
      have := h (i + 1) (by simpa using Nat.succ_lt_succ hi)
      rwa [show j + (i + 1) = (j + 1) + i by omega] at this
    simp only [runLoop, h0.1, h0.2, permStep_eq, ih (j + 1) hrest]
    simp [okTrace, Trace.seq, seqFrom_succ, List.length_cons]

lemma runLoop_err (env : Env) (ids : Nat → String) (metas : Nat → FileMeta) (e : Err) :
    ∀ (fs : List ReqFile) (k j : Nat), k < fs.length →
    (∀ i, i < k →
      env.create (j + i) = .ok (ids (j + i)) ∧
      env.get (ids (j + i)) = .ok (metas (j + i))) →
    env.create (j + k) = .error e →
    runLoop env j fs =
      (some e, seqFrom (fun i => mkResult (metas i)) j k, errTrace env ids j k fs) := by
  intro fs
  induction fs with
  | nil =>
    intro k j hk
    exact absurd hk (by simp)
  | cons f rest ih =>
    intro k j hk hok he
    cases k with
    | zero =>
      simp only [Nat.add_zero] at he
      simp only [runLoop, he]
      simp [errTrace, seqFrom, Trace.empty]
    | succ k =>
      have h0 := hok 0 (by omega)
      simp only [Nat.add_zero] at h0
      have hrest : ∀ i, i < k →
          env.create ((j + 1) + i) = .ok (ids ((j + 1) + i)) ∧
          env.get (ids ((j + 1) + i)) = .ok (metas ((j + 1) + i)) := by
        intro i hi
        have := hok (i + 1) (by omega)
        rwa [show j + (i + 1) = (j + 1) + i by omega] at this
      have he' : env.create ((j + 1) + k) = .error e := by
        rwa [show j + (k + 1) = (j + 1) + k by omega] at he
      have hk' : k < rest.length := by simpa using Nat.lt_of_succ_lt_succ hk
      simp only [runLoop, h0.1, h0.2, permStep_eq, ih k (j + 1) hk' hrest he']
      simp [errTrace, Trace.seq, seqFrom_succ, List.take_succ_cons]

lemma runLoop_count (env : Env) : ∀ (fs : List ReqFile) (j : Nat),
    ((runLoop env j fs).2.1).length = ((runLoop env j fs).2.2).unlinkAttempts.length := by
  intro fs
  induction fs with
  | nil => intro j; rfl
  | cons f rest ih =>
    intro j
    simp only [runLoop]
    cases hc : env.create j with
    | error e => rfl
    | ok fileId =>
      simp only [permStep_eq]
      cases hg : env.get fileId with
      | error e => rfl
      | ok meta =>
        simp [Trace.seq, ih (j + 1)]

lemma runLoop_perm_indep (d s n : String) (cr : Nat → Except Err String)
    (pm pm' : String → Except Err Unit) (gt : String → Except Err FileMeta)
    (ap : Except Err Unit) :
    ∀ (fs : List ReqFile) (j : Nat),
    runLoop ⟨d, s, n, cr, pm', gt, ap⟩ j fs = runLoop ⟨d, s, n, cr, pm, gt, ap⟩ j fs := by
  intro fs
  induction fs with
  | nil => intro j; rfl
  | cons f rest ih =>
    intro j
    simp only [runLoop]
    cases hc : cr j with
    | error e => rfl
    | ok fileId =>
      simp only [permStep_eq]
      cases hg : gt fileId with
      | error e => rfl
      | ok meta =>
        simp [ih (j + 1), mkCreateCall]

lemma handler_perm_indep (env : Env) (p : String → Except Err Unit)
    (rf : Option (List ReqFile)) (b : ReqBody) :
    handler { env with perm := p } rf b = handler env rf b := by
  cases env with
  | mk d s n cr pm gt ap =>
    simp only [handler, runLoop_perm_indep d s n cr pm p gt ap]

lemma catchResponse_fst (e : Err) (rf : Option (List ReqFile)) (t : Trace) :
    (catchResponse e rf t).1 =
      { status := 500, body := .fail (jsOrStr e.message "Server xatosi") } := by
  cases rf <;> rfl

lemma catchResponse_some (e : Err) (fs : List ReqFile) (t : Trace) :
    catchResponse e (some fs) t =
      ({ status := 500, body := .fail (jsOrStr e.message "Server xatosi") },
       { t with unlinkAttempts := t.unlinkAttempts ++ fs.map (fun f => f.path) }) := rfl

lemma handler_ok_eq (env : Env) (ids : Nat → String) (metas : Nat → FileMeta)
    (fs : List ReqFile) (body : ReqBody) (hv : validSubmission fs body)
    (hok : ∀ i, i < fs.length →
      env.create i = .ok (ids i) ∧ env.get (ids i) = .ok (metas i))
    (happ : env.append = .ok ()) :
    handler env (some fs) body =
      ({ status := 200, body := .ok (expectedUploads metas fs.length) },
       { okTrace env ids 0 fs with
         appendCalls := [expectedAppend env body (expectedUploads metas fs.length)] }) := by
  obtain ⟨h1, h2, h3, h4, h5, h6⟩ := hv
  have hok' : ∀ i, i < fs.length →
      env.create (0 + i) = .ok (ids (0 + i)) ∧ env.get (ids (0 + i)) = .ok (metas (0 + i)) := by
    intro i hi
    simpa [Nat.zero_add] using hok i hi
  simp only [handler, Option.getD_some]
  rw [if_neg h1, if_neg (by omega : ¬ fs.length > 10),
      if_neg (by omega : ¬ totalSize fs > sizeLimit),
      if_neg (by simp [h4, h5, h6] : ¬ (jsFalsy body.firstName || jsFalsy body.lastName ||
        jsFalsy body.phone) = true),
      runLoop_ok env ids metas fs 0 hok', happ]
  simp [expectedUploads, expectedAppend, expectedRow, okTrace]

lemma handler_create_err_eq (env : Env) (ids : Nat → String) (metas : Nat → FileMeta)
    (fs : List ReqFile) (body : ReqBody) (e : Err) (k : Nat)
    (hv : validSubmission fs body) (hk : k < fs.length)
    (hok : ∀ i, i < k →
      env.create i = .ok (ids i) ∧ env.get (ids i) = .ok (metas i))
    (he : env.create k = .error e) :
    handler env (some fs) body =
      ({ status := 500, body := .fail (jsOrStr e.message "Server xatosi") },
       { errTrace env ids 0 k fs with
         unlinkAttempts := (fs.take k).map (fun f => f.path) ++
           fs.map (fun f => f.path) }) := by
  obtain ⟨h1, h2, h3, h4, h5, h6⟩ := hv
  have hok' : ∀ i, i < k →
      env.create (0 + i) = .ok (ids (0 + i)) ∧ env.get (ids (0 + i)) = .ok (metas (0 + i)) := by
    intro i hi
    simpa [Nat.zero_add] using hok i hi
  have he' : env.create (0 + k) = .error e := by simpa [Nat.zero_add] using he
  simp only [handler, Option.getD_some]
  rw [if_neg h1, if_neg (by omega : ¬ fs.length > 10),
      if_neg (by omega : ¬ totalSize fs > sizeLimit),
      if_neg (by simp [h4, h5, h6] : ¬ (jsFalsy body.firstName || jsFalsy body.lastName ||
        jsFalsy body.phone) = true),
      runLoop_err env ids metas e fs k 0 hk hok' he']
  simp [catchResponse_some, errTrace]

lemma handler_append_err_eq (env : Env) (ids : Nat → String) (metas : Nat → FileMeta)
    (fs : List ReqFile) (body : ReqBody) (e : Err) (hv : validSubmission fs body)
    (hok : ∀ i, i < fs.length →
      env.create i = .ok (ids i) ∧ env.get (ids i) = .ok (metas i))
    (happ : env.append = .error e) :
    handler env (some fs) body =
      ({ status := 500, body := .fail (jsOrStr e.message "Server xatosi") },
       { okTrace env ids 0 fs with
         appendCalls := [expectedAppend env body (expectedUploads metas fs.length)],
         unlinkAttempts := fs.map (fun f => f.path) ++ fs.map (fun f => f.path) }) := by
  obtain ⟨h1, h2, h3, h4, h5, h6⟩ := hv
  have hok' : ∀ i, i < fs.length →
      env.create (0 + i) = .ok (ids (0 + i)) ∧ env.get (ids (0 + i)) = .ok (metas (0 + i)) := by
    intro i hi
    simpa [Nat.zero_add] using hok i hi
  simp only [handler, Option.getD_some]
  rw [if_neg h1, if_neg (by omega : ¬ fs.length > 10),
      if_neg (by omega : ¬ totalSize fs > sizeLimit),
      if_neg (by simp [h4, h5, h6] : ¬ (jsFalsy body.firstName || jsFalsy body.lastName ||
        jsFalsy body.phone) = true),
      runLoop_ok env ids metas fs 0 hok', happ]
  simp [catchResponse_some, expectedUploads, expectedAppend, expectedRow, okTrace]

lemma handler_nofiles_eq (env : Env) (rf : Option (List ReqFile)) (b : ReqBody)
    (h : (rf.getD []).length = 0) :
    handler env rf b = ({ status := 400, body := .fail noFilesMsg }, Trace.empty) := by
  simp only [handler]
  rw [if_pos h]

lemma handler_toomany_eq (env : Env) (rf : Option (List ReqFile)) (b : ReqBody)
    (h0 : (rf.getD []).length ≠ 0) (h : (rf.getD []).length > 10) :
    handler env rf b = ({ status := 400, body := .fail tooManyMsg }, Trace.empty) := by
  simp only [handler]
  rw [if_neg h0, if_pos h]

lemma handler_toolarge_eq (env : Env) (rf : Option (List ReqFile)) (b : ReqBody)
    (h0 : (rf.getD []).length ≠ 0) (h10 : ¬ (rf.getD []).length > 10)
    (h : totalSize (rf.getD []) > sizeLimit) :
    handler env rf b = ({ status := 400, body := .fail tooLargeMsg }, Trace.empty) := by
  simp only [handler]
  rw [if_neg h0, if_neg h10, if_pos h]

lemma handler_missing_eq (env : Env) (rf : Option (List ReqFile)) (b : ReqBody)
    (h0 : (rf.getD []).length ≠ 0) (h10 : ¬ (rf.getD []).length > 10)
    (hsz : ¬ totalSize (rf.getD []) > sizeLimit)
    (hmf : (jsFalsy b.firstName || jsFalsy b.lastName || jsFalsy b.phone) = true) :
    handler env rf b = ({ status := 400, body := .fail missingMsg },
      { Trace.empty with unlinkAttempts := (rf.getD []).map (fun f => f.path) }) := by
  simp only [handler]
  rw [if_neg h0, if_neg h10, if_neg hsz, if_pos hmf]

/-- C10: a request with no `files` field at all (`req.files` undefined) is
treated like an empty file list — the handler gives the same result as for
zero files, namely the 400 NoFiles failure, without raising. -/
theorem C10_absent_files_field (env : Env) (b : ReqBody) :
    handler env none b = handler env (some []) b ∧
    handler env none b = ({ status := 400, body := .fail noFilesMsg }, Trace.empty) :=
  ⟨rfl, rfl⟩

/-- C3: the four validation checks run in the fixed order
NoFiles, TooManyFiles, PayloadTooLarge, MissingFields; the first failing
check answers 400 with its own message, and on every validation failure the
resulting trace contains no Drive or Sheets call (the first three failures
produce the empty trace; the last produces only unlink attempts). -/
theorem C3_validation_order (env : Env) (rf : Option (List ReqFile)) (b : ReqBody) :
    ((rf.getD []).length = 0 →
      handler env rf b = ({ status := 400, body := .fail noFilesMsg }, Trace.empty)) ∧
    ((rf.getD []).length ≠ 0 → (rf.getD []).length > 10 →
      handler env rf b = ({ status := 400, body := .fail tooManyMsg }, Trace.empty)) ∧
    ((rf.getD []).length ≠ 0 → ¬ (rf.getD []).length > 10 →
      totalSize (rf.getD []) > sizeLimit →
      handler env rf b = ({ status := 400, body := .fail tooLargeMsg }, Trace.empty)) ∧
    ((rf.getD []).length ≠ 0 → ¬ (rf.getD []).length > 10 →
      ¬ totalSize (rf.getD []) > sizeLimit →
      (jsFalsy b.firstName || jsFalsy b.lastName || jsFalsy b.phone) = true →
      handler env rf b = ({ status := 400, body := .fail missingMsg },
        { Trace.empty with unlinkAttempts := (rf.getD []).map (fun f => f.path) })) ∧
    Trace.empty.createCalls = [] ∧ Trace.empty.permCalls = [] ∧
    Trace.empty.getCalls = [] ∧ Trace.empty.appendCalls = [] :=
  ⟨handler_nofiles_eq env rf b, handler_toomany_eq env rf b, handler_toolarge_eq env rf b,
   handler_missing_eq env rf b, rfl, rfl, rfl, rfl⟩

/-- C3 witness: on a concrete empty submission the first conjunct of
`C3_validation_order` applies and produces the NoFiles response. -/
theorem C3_validation_order_witness :
    handler wEnv (some []) wBody = ({ status := 400, body := .fail noFilesMsg }, Trace.empty) :=
  (C3_validation_order wEnv (some []) wBody).1 rfl

/-- C2 counterexample: the claim as stated is false — a submission of two
60 MiB files with all text fields present fails validation
(PayloadTooLarge, HTTP 400) yet the handler releases no temporary file at
all: `fs.unlinkSync` is never attempted on this path. -/
theorem C2_validation_cleanup_cex :
    (handler wEnv (some [wBigA, wBigB]) wBody).1.status = 400 ∧
    (handler wEnv (some [wBigA, wBigB]) wBody).2.unlinkAttempts = [] ∧
    wBigA.path ∉ (handler wEnv (some [wBigA, wBigB]) wBody).2.unlinkAttempts :=
  ⟨rfl, rfl, by decide⟩

/-- C2 amended: every submission failing one of the four validation checks
gets HTTP 400 with no Drive or Sheets call; the temporary files are
released on the MissingFields failure (and there are none on the NoFiles
failure), but on the TooManyFiles and PayloadTooLarge failures the handler
does not release the received temporary files. -/
theorem C2_validation_failure_amended (env : Env) (rf : Option (List ReqFile))
    (b : ReqBody) (hval : validationFails (rf.getD []) b) :
    (handler env rf b).1.status = 400 ∧
    (handler env rf b).2.createCalls = [] ∧
    (handler env rf b).2.permCalls = [] ∧
    (handler env rf b).2.getCalls = [] ∧
    (handler env rf b).2.appendCalls = [] ∧
    ((rf.getD []).length ≠ 0 → ¬ (rf.getD []).length > 10 →
      ¬ totalSize (rf.getD []) > sizeLimit →
      (handler env rf b).2.unlinkAttempts = (rf.getD []).map (fun f => f.path)) ∧
    ((rf.getD []).length > 10 ∨
      ((rf.getD []).length ≠ 0 ∧ totalSize (rf.getD []) > sizeLimit) →
      (handler env rf b).2.unlinkAttempts = []) := by
  by_cases h0 : (rf.getD []).length = 0
  · rw [handler_nofiles_eq env rf b h0]
    exact ⟨rfl, rfl, rfl, rfl, rfl, fun hne => absurd h0 hne, fun _ => rfl⟩
  · by_cases h10 : (rf.getD []).length > 10
    · rw [handler_toomany_eq env rf b h0 h10]
      exact ⟨rfl, rfl, rfl, rfl, rfl, fun _ h => absurd h10 h, fun _ => rfl⟩
    · by_cases hsz : totalSize (rf.getD []) > sizeLimit
      · rw [handler_toolarge_eq env rf b h0 h10 hsz]
        exact ⟨rfl, rfl, rfl, rfl, rfl, fun _ _ h => absurd hsz h, fun _ => rfl⟩
      · have hmf : (jsFalsy b.firstName || jsFalsy b.lastName || jsFalsy b.phone) = true := by
          rcases hval with h | h | h | h
          · exact absurd h h0
          · exact absurd h h10
          · exact absurd h hsz
          · exact h
        rw [handler_missing_eq env rf b h0 h10 hsz hmf]
        refine ⟨rfl, rfl, rfl, rfl, rfl, fun _ _ _ => rfl, ?_⟩
        intro hc
        rcases hc with h | ⟨_, h⟩
        · exact absurd h h10
        · exact absurd h hsz

/-- C2 amended witness: the amended theorem applied to the concrete
PayloadTooLarge submission — 400, and no temporary file released. -/
theorem C2_validation_failure_amended_witness :
    (handler wEnv (some [wBigA, wBigB]) wBody).1.status = 400 ∧
    (handler wEnv (some [wBigA, wBigB]) wBody).2.unlinkAttempts = [] :=
  ⟨(C2_validation_failure_amended wEnv (some [wBigA, wBigB]) wBody
      (Or.inr (Or.inr (Or.inl (by decide))))).1,
   (C2_validation_failure_amended wEnv (some [wBigA, wBigB]) wBody
      (Or.inr (Or.inr (Or.inl (by decide))))).2.2.2.2.2.2
      (Or.inr ⟨by decide, by decide⟩)⟩

/-- C1: if, on a validated submission, the Drive `files.create` call fails on
the file of 0-based index `k` (the first `k` files having fully succeeded),
the handler answers a 500 failure carrying `err.message || 'Server xatosi'`,
appends no spreadsheet row, called `files.create` only for files `0..k`
(files after `k` are never processed), has attempted release of the
temporary file of every file processed before `k`, and the Drive ids of the
already-uploaded files `0..k-1` are all still in remote storage at the end
of the request (no rollback). -/
theorem C1_upload_failure_aborts (env : Env) (ids : Nat → String)
    (metas : Nat → FileMeta) (fs : List ReqFile) (body : ReqBody) (e : Err) (k : Nat)
    (hv : validSubmission fs body) (hk : k < fs.length)
    (hok : ∀ i, i < k → env.create i = .ok (ids i) ∧ env.get (ids i) = .ok (metas i))
    (he : env.create k = .error e) :
    (handler env (some fs) body).1 =
      { status := 500, body := .fail (jsOrStr e.message "Server xatosi") } ∧
    (handler env (some fs) body).2.appendCalls = [] ∧
    (handler env (some fs) body).2.createCalls.length = k + 1 ∧
    (∀ q, q ∈ (fs.take k).map (fun f => f.path) →
      q ∈ (handler env (some fs) body).2.unlinkAttempts) ∧
    (handler env (some fs) body).2.remote = seqFrom ids 0 k := by
  rw [handler_create_err_eq env ids metas fs body e k hv hk hok he]
  refine ⟨rfl, rfl, ?_, ?_, rfl⟩
  · simp only [errTrace, List.length_map, List.length_take]
    omega
  · intro q hq
    simp only [errTrace, List.mem_append]
    exact Or.inl hq

/-- C1 witness: with a concrete two-file validated submission whose second
`files.create` call fails, the theorem applies: 500 with the error's
message, no append, one create call per processed file, the first file's
temp path released, and the first file's id still remote. -/
theorem C1_upload_failure_aborts_witness :
    (handler wEnvFail1 (some [wFileA, wFileB]) wBody).1 =
      { status := 500, body := .fail (jsOrStr wErr.message "Server xatosi") } ∧
    (handler wEnvFail1 (some [wFileA, wFileB]) wBody).2.appendCalls = [] ∧
    (handler wEnvFail1 (some [wFileA, wFileB]) wBody).2.createCalls.length = 1 + 1 ∧
    (∀ q, q ∈ ([wFileA, wFileB].take 1).map (fun f => f.path) →
      q ∈ (handler wEnvFail1 (some [wFileA, wFileB]) wBody).2.unlinkAttempts) ∧
    (handler wEnvFail1 (some [wFileA, wFileB]) wBody).2.remote = seqFrom wIds 0 1 :=
  C1_upload_failure_aborts wEnvFail1 wIds wMetas [wFileA, wFileB] wBody wErr 1
    ⟨by decide, by decide, by decide, by decide, by decide, by decide⟩
    (by decide) (by decide) (by decide)

/-- C4: in every run of the upload loop the number of `uploaded` entries
collected equals the number of files fully processed (one per-file unlink
attempt is made exactly when a file's processing completes); and on a
success response of a validated submission the `uploaded` array has exactly
one entry per input file, the `i`-th entry being built from the `i`-th
file's `files.get` metadata, in input order. -/
theorem C4_results_match_files (env : Env) (ids : Nat → String)
    (metas : Nat → FileMeta) (fs : List ReqFile) (body : ReqBody)
    (hv : validSubmission fs body)
    (hok : ∀ i, i < fs.length →
      env.create i = .ok (ids i) ∧ env.get (ids i) = .ok (metas i))
    (happ : env.append = .ok ()) :
    (∀ (env' : Env) (j : Nat) (fs' : List ReqFile),
      ((runLoop env' j fs').2.1).length =
        ((runLoop env' j fs').2.2).unlinkAttempts.length) ∧
    (handler env (some fs) body).1 =
      { status := 200, body := .ok (expectedUploads metas fs.length) } ∧
    (expectedUploads metas fs.length).length = fs.length ∧
    (∀ i, i < fs.length →
      (expectedUploads metas fs.length)[i]? = some (mkResult (metas i))) := by
  refine ⟨fun env' j fs' => runLoop_count env' fs' j, ?_, ?_, ?_⟩
  · rw [handler_ok_eq env ids metas fs body hv hok happ]
  · simp [expectedUploads, seqFrom_length]
  · intro i hi
    rw [expectedUploads]
    simpa using seqFrom_getElem? (fun i => mkResult (metas i)) 0 fs.length i hi

/-- C4 witness: the theorem applied to a concrete validated two-file
submission on which every external call succeeds. -/
theorem C4_results_match_files_witness :
    (∀ (env' : Env) (j : Nat) (fs' : List ReqFile),
      ((runLoop env' j fs').2.1).length =
        ((runLoop env' j fs').2.2).unlinkAttempts.length) ∧
    (handler wEnv (some [wFileA, wFileB]) wBody).1 =
      { status := 200, body := .ok (expectedUploads wMetas 2) } ∧
    (expectedUploads wMetas 2).length = 2 ∧
    (∀ i, i < 2 → (expectedUploads wMetas 2)[i]? = some (mkResult (wMetas i))) := by
  have h := C4_results_match_files wEnv wIds wMetas [wFileA, wFileB] wBody
    ⟨by decide, by decide, by decide, by decide, by decide, by decide⟩
    (by decide) (by decide)
  simpa using h

/-- C5: on a validated submission on which every upload and the append
succeed, exactly one spreadsheet append call is made, targeting the
configured spreadsheet id and range `Sheet1!A:Z` with value-input mode
`USER_ENTERED` (the interpreted mode), and its single row has exactly the 7
ordered cells `[now, firstName, lastName, phone, fileCount, joinedNames,
joinedLinks]`, `now` being the handler's `new Date().toISOString()` value
(modelled as `env.now`) and `fileCount` the decimal string of the number of
uploaded files. -/
theorem C5_sheet_append_row (env : Env) (ids : Nat → String)
    (metas : Nat → FileMeta) (fs : List ReqFile) (body : ReqBody)
    (fn ln ph : String) (hv : validSubmission fs body)
    (hok : ∀ i, i < fs.length →
      env.create i = .ok (ids i) ∧ env.get (ids i) = .ok (metas i))
    (happ : env.append = .ok ())
    (hfn : body.firstName = some fn) (hln : body.lastName = some ln)
    (hph : body.phone = some ph) :
    (handler env (some fs) body).2.appendCalls =
      [{ spreadsheetId := env.sheetsId, range := "Sheet1!A:Z",
         valueInputOption := "USER_ENTERED",
         row := [env.now, fn, ln, ph, toString fs.length,
           String.intercalate " | " ((expectedUploads metas fs.length).map (fun u => u.name)),
           String.intercalate " | " ((expectedUploads metas fs.length).map (fun u => u.link))] }] ∧
    (∀ c, c ∈ (handler env (some fs) body).2.appendCalls → c.row.length = 7) := by
  rw [handler_ok_eq env ids metas fs body hv hok happ]
  constructor
  · simp [expectedAppend, expectedRow, hfn, hln, hph, expectedUploads, seqFrom_length]
  · intro c hc
    simp only [List.mem_singleton] at hc
    subst hc
    rfl

/-- C5 witness: the theorem applied to the concrete happy-path submission. -/
theorem C5_sheet_append_row_witness :
    (handler wEnv (some [wFileA, wFileB]) wBody).2.appendCalls =
      [{ spreadsheetId := wEnv.sheetsId, range := "Sheet1!A:Z",
         valueInputOption := "USER_ENTERED",
         row := [wEnv.now, "Ali", "Valiyev", "+998901234567", toString (2 : Nat),
           String.intercalate " | " ((expectedUploads wMetas 2).map (fun u => u.name)),
           String.intercalate " | " ((expectedUploads wMetas 2).map (fun u => u.link))] }] ∧
    (∀ c, c ∈ (handler wEnv (some [wFileA, wFileB]) wBody).2.appendCalls →
      c.row.length = 7) := by
  have h := C5_sheet_append_row wEnv wIds wMetas [wFileA, wFileB] wBody
    "Ali" "Valiyev" "+998901234567"
    ⟨by decide, by decide, by decide, by decide, by decide, by decide⟩
    (by decide) (by decide) rfl rfl rfl
  simpa using h

/-- C6 counterexample: the claim as stated is false — the joined-names cell
uses the three-character delimiter `" | "` (pipe surrounded by spaces), not
the bare delimiter `"|"`.  On a concrete run whose two files get display
names `a` and `b`, the cell is `"a | b"`, which differs from the
`"|"`-joined value `"a|b"`. -/
theorem C6_join_delimiter_cex :
    (handler cexEnv (some [wFileA, wFileB]) wBody).2.appendCalls.map
        (fun c => c.row[5]?) = [some (String.intercalate " | " ["a", "b"])] ∧
    (handler cexEnv (some [wFileA, wFileB]) wBody).2.appendCalls.map
        (fun c => c.row[5]?) ≠ [some (String.intercalate "|" ["a", "b"])] := by
  constructor
  · rfl
  · decide

/-- C6 amended: in the appended row, the joinedFileNames cell is the display
names of the uploaded files joined with the delimiter `" | "` (a pipe
surrounded by single spaces), and the joinedFileLinks cell is their
shareable links joined with the same delimiter, both in upload order. -/
theorem C6_join_delimiter_amended (env : Env) (ids : Nat → String)
    (metas : Nat → FileMeta) (fs : List ReqFile) (body : ReqBody)
    (hv : validSubmission fs body)
    (hok : ∀ i, i < fs.length →
      env.create i = .ok (ids i) ∧ env.get (ids i) = .ok (metas i))
    (happ : env.append = .ok ()) :
    (handler env (some fs) body).2.appendCalls.map (fun c => c.row[5]?) =
      [some (String.intercalate " | " (seqFrom (fun i => (metas i).name) 0 fs.length))] ∧
    (handler env (some fs) body).2.appendCalls.map (fun c => c.row[6]?) =
      [some (String.intercalate " | " (seqFrom (fun i => mkLink (metas i)) 0 fs.length))] := by
  rw [handler_ok_eq env ids metas fs body hv hok happ]
  constructor <;>
    simp [expectedAppend, expectedRow, expectedUploads, seqFrom_map, mkResult]

/-- C6 amended witness: the amended theorem applied to the concrete run with
display names `a` and `b`. -/
theorem C6_join_delimiter_amended_witness :
    (handler cexEnv (some [wFileA, wFileB]) wBody).2.appendCalls.map
        (fun c => c.row[5]?) =
      [some (String.intercalate " | " (seqFrom (fun i => (cexMetas i).name) 0 2))] ∧
    (handler cexEnv (some [wFileA, wFileB]) wBody).2.appendCalls.map
        (fun c => c.row[6]?) =
      [some (String.intercalate " | " (seqFrom (fun i => mkLink (cexMetas i)) 0 2))] := by
  have h := C6_join_delimiter_amended cexEnv wIds cexMetas [wFileA, wFileB] wBody
    ⟨by decide, by decide, by decide, by decide, by decide, by decide⟩
    (by decide) (by decide)
  simpa using h

/-- C7: the outcome of the `drive.permissions.create` call never changes the
handler's result (its failure is swallowed by a `try/catch` that only
logs); and on a validated submission whose uploads, metadata fetches and
append succeed, the request succeeds with one `uploaded` entry per file,
whose `link` is `webViewLink || 'https://drive.google.com/uc?id=' + id`
(the view link when the service supplies a non-empty one, otherwise the
synthesized direct-access URL). -/
theorem C7_perm_failure_nonfatal (env : Env) (p : String → Except Err Unit)
    (ids : Nat → String) (metas : Nat → FileMeta) (fs : List ReqFile)
    (body : ReqBody) (hv : validSubmission fs body)
    (hok : ∀ i, i < fs.length →
      env.create i = .ok (ids i) ∧ env.get (ids i) = .ok (metas i))
    (happ : env.append = .ok ()) :
    (∀ (rf : Option (List ReqFile)) (b : ReqBody),
      handler { env with perm := p } rf b = handler env rf b) ∧
    (handler env (some fs) body).1.status = 200 ∧
    (handler env (some fs) body).1.body = .ok (expectedUploads metas fs.length) ∧
    (∀ i, i < fs.length →
      (expectedUploads metas fs.length)[i]? = some (mkResult (metas i)) ∧
      (mkResult (metas i)).link =
        jsOrStr (metas i).webViewLink
          ("https://drive.google.com/uc?id=" ++ (metas i).id)) := by
  refine ⟨fun rf b => handler_perm_indep env p rf b, ?_, ?_, ?_⟩
  · rw [handler_ok_eq env ids metas fs body hv hok happ]
  · rw [handler_ok_eq env ids metas fs body hv hok happ]
  · intro i hi
    constructor
    · rw [expectedUploads]
      simpa using seqFrom_getElem? (fun i => mkResult (metas i)) 0 fs.length i hi
    · rfl

/-- C7 witness: the theorem applied to the concrete happy-path submission
with an always-failing permission oracle available as `wPermFail`. -/
theorem C7_perm_failure_nonfatal_witness :
    (∀ (rf : Option (List ReqFile)) (b : ReqBody),
      handler { wEnv with perm := wPermFail } rf b = handler wEnv rf b) ∧
    (handler wEnv (some [wFileA, wFileB]) wBody).1.status = 200 ∧
    (handler wEnv (some [wFileA, wFileB]) wBody).1.body =
      .ok (expectedUploads wMetas 2) ∧
    (∀ i, i < 2 →
      (expectedUploads wMetas 2)[i]? = some (mkResult (wMetas i)) ∧
      (mkResult (wMetas i)).link =
        jsOrStr (wMetas i).webViewLink
          ("https://drive.google.com/uc?id=" ++ (wMetas i).id)) := by
  have h := C7_perm_failure_nonfatal wEnv wPermFail wIds wMetas [wFileA, wFileB] wBody
    ⟨by decide, by decide, by decide, by decide, by decide, by decide⟩
    (by decide) (by decide)
  simpa using h

/-- C8: on a validated submission on which every upload succeeds but the
spreadsheet append call fails with an error carrying a (non-empty) message,
the handler answers a 500 failure carrying exactly that message, the append
was attempted exactly once, and every uploaded file's Drive id is still in
remote storage at the end of the request (the inconsistency is not rolled
back). -/
theorem C8_append_failure (env : Env) (ids : Nat → String)
    (metas : Nat → FileMeta) (fs : List ReqFile) (body : ReqBody)
    (e : Err) (m : String) (hv : validSubmission fs body)
    (hok : ∀ i, i < fs.length →
      env.create i = .ok (ids i) ∧ env.get (ids i) = .ok (metas i))
    (happ : env.append = .error e) (hm : e.message = some m) (hm' : m ≠ "") :
    (handler env (some fs) body).1 = { status := 500, body := .fail m } ∧
    (handler env (some fs) body).2.appendCalls.length = 1 ∧
    (handler env (some fs) body).2.remote = seqFrom ids 0 fs.length := by
  rw [handler_append_err_eq env ids metas fs body e hv hok happ]
  refine ⟨?_, rfl, rfl⟩
  have hj : jsOrStr e.message "Server xatosi" = m := by
    simp [jsOrStr, jsFalsy, hm, hm']
  rw [hj]

/-- C8 witness: the theorem applied to the concrete happy-path submission
whose spreadsheet append fails with message `sheets down`. -/
theorem C8_append_failure_witness :
    (handler wEnvAppendErr (some [wFileA, wFileB]) wBody).1 =
      { status := 500, body := .fail "sheets down" } ∧
    (handler wEnvAppendErr (some [wFileA, wFileB]) wBody).2.appendCalls.length = 1 ∧
    (handler wEnvAppendErr (some [wFileA, wFileB]) wBody).2.remote =
      seqFrom wIds 0 2 := by
  have h := C8_append_failure wEnvAppendErr wIds wMetas [wFileA, wFileB] wBody
    wSheetErr "sheets down"
    ⟨by decide, by decide, by decide, by decide, by decide, by decide⟩
    (by decide) (by decide) rfl (by decide)
  simpa using h

lemma handler_valid_loop_err (env : Env) (rf : Option (List ReqFile)) (b : ReqBody)
    (e : Err) (us : List UploadResult) (t : Trace)
    (h0 : (rf.getD []).length ≠ 0) (h10 : ¬ (rf.getD []).length > 10)
    (hsz : ¬ totalSize (rf.getD []) > sizeLimit)
    (hmf : ¬ (jsFalsy b.firstName || jsFalsy b.lastName || jsFalsy b.phone) = true)
    (hr : runLoop env 0 (rf.getD []) = (some e, us, t)) :
    handler env rf b = catchResponse e rf t := by
  simp only [handler]
  rw [if_neg h0, if_neg h10, if_neg hsz, if_neg hmf, hr]

lemma handler_valid_loop_ok_append_ok (env : Env) (rf : Option (List ReqFile))
    (b : ReqBody) (us : List UploadResult) (t : Trace) (u : Unit)
    (h0 : (rf.getD []).length ≠ 0) (h10 : ¬ (rf.getD []).length > 10)
    (hsz : ¬ totalSize (rf.getD []) > sizeLimit)
    (hmf : ¬ (jsFalsy b.firstName || jsFalsy b.lastName || jsFalsy b.phone) = true)
    (hr : runLoop env 0 (rf.getD []) = (none, us, t)) (hap : env.append = .ok u) :
    (handler env rf b).1 = { status := 200, body := .ok us } := by
  simp only [handler]
  rw [if_neg h0, if_neg h10, if_neg hsz, if_neg hmf, hr, hap]

lemma handler_valid_loop_ok_append_err (env : Env) (rf : Option (List ReqFile))
    (b : ReqBody) (us : List UploadResult) (t : Trace) (e : Err)
    (h0 : (rf.getD []).length ≠ 0) (h10 : ¬ (rf.getD []).length > 10)
    (hsz : ¬ totalSize (rf.getD []) > sizeLimit)
    (hmf : ¬ (jsFalsy b.firstName || jsFalsy b.lastName || jsFalsy b.phone) = true)
    (hr : runLoop env 0 (rf.getD []) = (none, us, t)) (hap : env.append = .error e) :
    (handler env rf b).1 =
      { status := 500, body := .fail (jsOrStr e.message "Server xatosi") } := by
  simp only [handler]
  rw [if_neg h0, if_neg h10, if_neg hsz, if_neg hmf, hr, hap]
  exact catchResponse_fst e rf _

/-- C9: the handler is a total function producing exactly one structured
response (no exception escapes it), whose body carries the boolean
`success` flag; every response is either 200 success with an `uploaded`
list, or 400 failure with one of the four fixed validation messages, or
500 failure with `err.message || 'Server xatosi'` for some thrown error
`err`. -/
theorem C9_response_shape (env : Env) (rf : Option (List ReqFile)) (b : ReqBody) :
    (∃ us, (handler env rf b).1 = { status := 200, body := .ok us } ∧
      ((handler env rf b).1.body).success = true) ∨
    (∃ m, (handler env rf b).1 = { status := 400, body := .fail m } ∧
      ((handler env rf b).1.body).success = false ∧
      (m = noFilesMsg ∨ m = tooManyMsg ∨ m = tooLargeMsg ∨ m = missingMsg)) ∨
    (∃ e : Err, (handler env rf b).1 =
        { status := 500, body := .fail (jsOrStr e.message "Server xatosi") } ∧
      ((handler env rf b).1.body).success = false) := by
  by_cases h0 : (rf.getD []).length = 0
  · rw [handler_nofiles_eq env rf b h0]
    exact Or.inr (Or.inl ⟨noFilesMsg, rfl, rfl, Or.inl rfl⟩)
  · by_cases h10 : (rf.getD []).length > 10
    · rw [handler_toomany_eq env rf b h0 h10]
      exact Or.inr (Or.inl ⟨tooManyMsg, rfl, rfl, Or.inr (Or.inl rfl)⟩)
    · by_cases hsz : totalSize (rf.getD []) > sizeLimit
      · rw [handler_toolarge_eq env rf b h0 h10 hsz]
        exact Or.inr (Or.inl ⟨tooLargeMsg, rfl, rfl, Or.inr (Or.inr (Or.inl rfl))⟩)
      · by_cases hmf : (jsFalsy b.firstName || jsFalsy b.lastName ||
          jsFalsy b.phone) = true
        · rw [handler_missing_eq env rf b h0 h10 hsz hmf]
          exact Or.inr (Or.inl ⟨missingMsg, rfl, rfl, Or.inr (Or.inr (Or.inr rfl))⟩)
        · rcases hr : runLoop env 0 (rf.getD []) with ⟨r, us, t⟩
          cases r with
          | some e =>
            rw [handler_valid_loop_err env rf b e us t h0 h10 hsz hmf hr]
            refine Or.inr (Or.inr ⟨e, catchResponse_fst e rf t, ?_⟩)
            rw [catchResponse_fst]
            rfl
          | none =>
            cases hap : env.append with
            | ok u =>
              refine Or.inl ⟨us,
                handler_valid_loop_ok_append_ok env rf b us t u h0 h10 hsz hmf hr hap, ?_⟩
              rw [handler_valid_loop_ok_append_ok env rf b us t u h0 h10 hsz hmf hr hap]
              rfl
            | error e =>
              refine Or.inr (Or.inr ⟨e,
                handler_valid_loop_ok_append_err env rf b us t e h0 h10 hsz hmf hr hap, ?_⟩)
              rw [handler_valid_loop_ok_append_err env rf b us t e h0 h10 hsz hmf hr hap]
              rfl
